import Mathlib

/-!
A shallow embedding of the session authentication core of the creep-vue-client
repository: the JWT codec boundary, the cookie transport, the association
middleware (routeAssociateAndRefresh), the mutation guard
(routeAuthenticateForMutation), the bare verification entry point
(promiseAuthenticateForMutation), and the in-memory member registry together
with the refreshSub callback wired up in the server seed file.

JavaScript values are made explicit: absent values are Option, the scope claim
is either a bare string or an array of strings, machine time is a Nat count of
milliseconds (tokens store whole seconds, as the jsonwebtoken library floors
millisecond clocks to seconds).  Callback control flow is sequentialised: each
middleware returns the ordered list of continuation invocations it performs,
the final request session object, the ordered list of response cookie writes,
the final state of the external registry oracle, and a flag recording whether
a TypeError aborted the step.
-/

namespace Creep

/-- The scope claim of a token: the source stores either a bare string
("refresh" or "session") or an array of strings ("session" plus zero or more
of "sensitive" and "moderate"). -/
inductive ScopeV where
  | str (s : String)
  | arr (l : List String)
deriving DecidableEq, Repr

/-- Decoded JWT claims, as produced by jsonWebToken.sign at the call sites of
the session module: jti, iss, sub, scope plus the iat and exp added by the
library (whole seconds).  The sub field is Option because signing a payload
whose sub is undefined drops the key (JSON serialisation), and decoding then
yields an absent sub. -/
structure Claims where
  jti : String
  iss : String
  sub : Option String
  scope : ScopeV
  iat : Nat
  exp : Nat
deriving DecidableEq, Repr

/-- A signed compact token: the claims plus the secret used to sign them.
Storing the signing secret models the HMAC signature - verification with a
secret succeeds exactly when the token was signed with that same secret. -/
structure Jwt where
  claims : Claims
  sig : String
deriving DecidableEq, Repr

/-- Errors flowing through the middleware callbacks.  The http constructor is
an error made by the httpErrors(status, message) factory, which carries an
explicit HTTP status.  The jwt constructors are the verification errors thrown
by the jsonwebtoken library (bad signature, expired token, issuer mismatch,
malformed or missing token string); those carry no HTTP status field. -/
inductive AuthError where
  | http (status : Nat) (message : String)
  | jwtBadSignature
  | jwtExpired
  | jwtIssuerMismatch
  | jwtMalformed
deriving DecidableEq, Repr

/-- The status field of an error object: present on httpErrors products,
absent on jsonwebtoken errors. -/
def AuthError.status : AuthError → Option Nat
  | .http s _ => some s
  | _ => none

/-- The HTTP status of the response the server ultimately sends for an error:
the custom handler in the server seed answers with err.status when that status
is 401, 403 or 404, and every other error falls through to the stock handler,
which answers with err.status when present and 500 otherwise. -/
def responseStatusFor (e : AuthError) : Nat :=
  (AuthError.status e).getD 500

/-- jsonWebToken.verify of an optional token string against a secret and an
expected issuer at clock time nowMs.  A missing or unparseable token string is
the malformed error; then the signature is checked, then expiry (the library
fails once the floored-to-seconds clock reaches exp), then the issuer. -/
def jwtVerify (tok : Option Jwt) (secret iss : String) (nowMs : Nat) :
    Except AuthError Claims :=
  match tok with
  | none => Except.error AuthError.jwtMalformed
  | some t =>
      if t.sig ≠ secret then Except.error AuthError.jwtBadSignature
      else if nowMs / 1000 ≥ t.claims.exp then Except.error AuthError.jwtExpired
      else if t.claims.iss ≠ iss then Except.error AuthError.jwtIssuerMismatch
      else Except.ok t.claims

/-- jsonWebToken.sign of the payloads built by the session module: the caller
supplies jti (a fresh uuid), iss, sub and scope, and the library adds
iat = floor(nowMs / 1000) and exp = iat + expiresInSec. -/
def jwtSign (jti iss : String) (sub : Option String) (scope : ScopeV)
    (secret : String) (expiresInSec : Nat) (nowMs : Nat) : Jwt :=
  { claims :=
      { jti := jti, iss := iss, sub := sub, scope := scope,
        iat := nowMs / 1000, exp := nowMs / 1000 + expiresInSec },
    sig := secret }

/-- Options consumed by the session module (the refreshSub callback is passed
separately so that its state can be typed). -/
structure Options where
  iss : String
  secret : String
  refreshMaxAge : Nat
  sessionMaxAge : Nat
  sessionEarlyRefresh : Nat
deriving DecidableEq, Repr

/-- The result of splitting a present Authorization header on spaces:
the first word (scheme), the optional token parsed from the second word
(none when the word is missing or is not a well-formed compact JWT), and the
remaining words. -/
structure AuthHeaderSplit where
  scheme : String
  jwt : Option Jwt
  rest : List String
deriving DecidableEq, Repr

/-- The inputs of one request relevant to the session core: the Authorization
header (none when absent or empty), the two cookie slots (none when the named
cookie is absent or empty, some when it holds a well-formed token; a cookie
holding garbage is modelled by a token whose signature check fails), and the
transport security flag mirrored into minted cookies. -/
structure Request where
  authorization : Option AuthHeaderSplit
  refreshCookie : Option Jwt
  sessionCookie : Option Jwt
  secure : Bool
deriving DecidableEq, Repr

/-- The two cookie slots written by the module. -/
inductive CookieSlot where
  | refresh
  | session
deriving DecidableEq, Repr

/-- One res.cookie call: the slot, the token written there, and the cookie
attributes the source sets. -/
structure CookieWrite where
  slot : CookieSlot
  jwt : Jwt
  httpOnly : Bool
  secure : Bool
  maxAge : Option Nat
deriving DecidableEq, Repr

/-- The req.session object: sub, the scope flags, the mutation flag and the
decoded driving credential.  A freshly created (or cleared) session object
has every field absent or false. -/
structure Session where
  sub : Option String := none
  sensitive : Bool := false
  moderate : Bool := false
  mutation : Bool := false
  decoded : Option Claims := none
deriving DecidableEq, Repr

/-- JavaScript truthiness of the sub field at the entry guard: undefined and
the empty string are falsy. -/
def subTruthy : Option String → Bool
  | none => false
  | some s => s != ""

/-- ASCII case folding of one character, as performed by a case-insensitive
regular expression over the ASCII word Bearer. -/
def charToLower (c : Char) : Char :=
  if 65 ≤ c.toNat ∧ c.toNat ≤ 90 then Char.ofNat (c.toNat + 32) else c

/-- The regular expression test of the header scheme in the source is a full,
case-insensitive match of the word Bearer. -/
def schemeIsBearer (s : String) : Bool :=
  s.data.map charToLower == "bearer".data

/-- The object promoteDecodedToSession builds from a present decoded token:
the sub key is always present (possibly with an absent value) and each of the
sensitive and moderate keys is set to true exactly when the scope, coerced to
an array, contains it. -/
structure Promoted where
  sub : Option String
  sensitive : Bool
  moderate : Bool
deriving DecidableEq, Repr

/-- promoteDecodedToSession on a present decoded token.  Calling it with an
absent token dereferences undefined and throws; that case is modelled at the
call site by the crashed flag of the run result. -/
def promoteDecodedToSession (decoded : Claims) : Promoted :=
  let scopeArray : List String :=
    match decoded.scope with
    | ScopeV.arr l => l
    | ScopeV.str s => [s]
  { sub := decoded.sub,
    sensitive := scopeArray.contains "sensitive",
    moderate := scopeArray.contains "moderate" }

/-- The lodash extend of the session with the promoted object and the decoded
token: sub is always overwritten, the flag keys overwrite only when present
(and they are only ever present with value true), decoded is set. -/
def extendPromoted (s : Session) (p : Promoted) (d : Claims) : Session :=
  { s with
      sub := p.sub,
      sensitive := p.sensitive || s.sensitive,
      moderate := p.moderate || s.moderate,
      decoded := some d }

/-- authenticateHeaderIfPresent: absent header means no credential and no
error; a present header is split on spaces, extra words are the 401 bad
format error, a scheme other than Bearer is the 401 bad scheme error, and
otherwise the token word is verified. -/
def authenticateHeaderIfPresent (req : Request) (opts : Options) (nowMs : Nat) :
    Except AuthError (Option Claims) :=
  match req.authorization with
  | none => Except.ok none
  | some h =>
      if h.rest ≠ [] then Except.error (AuthError.http 401 "credentials bad format")
      else if ¬ schemeIsBearer h.scheme then
        Except.error (AuthError.http 401 "credentials bad scheme")
      else (jwtVerify h.jwt opts.secret opts.iss nowMs).map some

/-- authenticateCookie: an absent (or empty, hence falsy) cookie means no
credential and no error; a present cookie is verified.  The source contains a
second falsiness test that would answer 401 credentials required, but it is
unreachable: the first test already returned for every falsy value. -/
def authenticateCookie (cookie : Option Jwt) (opts : Options) (nowMs : Nat) :
    Except AuthError (Option Claims) :=
  match cookie with
  | none => Except.ok none
  | some t => (jwtVerify (some t) opts.secret opts.iss nowMs).map some

/-- The almostExpired helper as written: true when the clock plus the
configured early-refresh margin, floored to seconds, has reached the
expiry of the decoded token. -/
def almostExpired (decoded : Claims) (opts : Options) (nowMs : Nat) : Bool :=
  decide ((nowMs + opts.sessionEarlyRefresh) / 1000 ≥ decoded.exp)

/-- The value almostExpired computes at its two actual call sites.  Both call
sites pass options.sessionEarlyRefresh (a number) in the position of the
options record, so inside the helper options.sessionEarlyRefresh reads a
property of a number and yields undefined, the addition with the clock yields
NaN, and the comparison of NaN against exp is false.  The call-site value is
therefore the constant false, whatever the token and the clock are. -/
def almostExpiredMiscalled (_decoded : Claims) (_earlyRefreshMs _nowMs : Nat) : Bool :=
  false

/-- One invocation of the express continuation: next() or next(err). -/
inductive Completion where
  | ok
  | fail (e : AuthError)
deriving DecidableEq, Repr

/-- The observable outcome of running the association middleware on one
request: the ordered continuation invocations, the final req.session object,
the ordered res.cookie writes, the final state of the external oracle, and
whether a TypeError aborted the step before it could complete. -/
structure RunResult (σ : Type) where
  completions : List Completion
  session : Session
  writes : List CookieWrite
  state : σ
  crashed : Bool
deriving Repr

/-- Helper newRefreshCookie composed with its res.cookie call: signs a
refresh-scope token expiring in floor(refreshMaxAge / 1000) seconds and
records an httpOnly cookie write with an explicit maxAge. -/
def newRefreshCookieWrite (opts : Options) (req : Request) (nowMs : Nat)
    (jti : String) (sub : Option String) : CookieWrite :=
  { slot := CookieSlot.refresh,
    jwt := jwtSign jti opts.iss sub (ScopeV.str "refresh") opts.secret
      (opts.refreshMaxAge / 1000) nowMs,
    httpOnly := true,
    secure := req.secure,
    maxAge := some opts.refreshMaxAge }

/-- Helper newSessionCookie composed with its res.cookie call: signs a
session-scope token expiring in floor(sessionMaxAge / 1000) seconds and
records a script-readable cookie write without a maxAge. -/
def newSessionCookieWrite (opts : Options) (req : Request) (nowMs : Nat)
    (jti : String) (sub : Option String) : CookieWrite :=
  { slot := CookieSlot.session,
    jwt := jwtSign jti opts.iss sub (ScopeV.str "session") opts.secret
      (opts.sessionMaxAge / 1000) nowMs,
    httpOnly := false,
    secure := req.secure,
    maxAge := none }

/-- Helper nextWithNewSession of doRouteAssociateAndRefresh: mints the refresh
cookie then the session cookie for the already-resolved validSub (the helper
newRefreshAndSessionCookie orders the two writes this way), decodes the new
session token into req.session.decoded, promotes it, and continues. -/
def nextWithNewSession {σ : Type} (opts : Options) (req : Request) (nowMs : Nat)
    (jtiR jtiS : String) (st : σ) (session : Session) (validSub : Option String) :
    RunResult σ :=
  let rw := newRefreshCookieWrite opts req nowMs jtiR validSub
  let sw := newSessionCookieWrite opts req nowMs jtiS validSub
  let d := sw.jwt.claims
  { completions := [Completion.ok],
    session := extendPromoted session (promoteDecodedToSession d) d,
    writes := [rw, sw],
    state := st,
    crashed := false }

/-- Helper nextWithExistingSession of doRouteAssociateAndRefresh, transcribed
branch for branch.  An absent decoded argument makes promoteDecodedToSession
dereference undefined, so the step aborts with a TypeError (crashed result).
Otherwise the decoded token is promoted into the session; with no refresh
cookie the step continues at once; with a refresh cookie and a non-refresh
driving scope the near-expiry test is consulted (it is constant false at this
call site, see almostExpiredMiscalled, so the step always continues; the
transcribed else branch is the near-expiry refresh logic of the source, whose
error arm lacks a return and therefore both fails the continuation and then
still mints a session cookie and completes a second time); with a
refresh-scope driving token the session cookie is loaded and kept when valid,
same-subject and not near expiry at the second constant-false call site, and
is re-minted otherwise.  The trailing some-other-token else branch of the
source is unreachable and has no transcription. -/
def nextWithExistingSession {σ : Type} (opts : Options) (req : Request)
    (nowMs : Nat) (jtiS : String) (st : σ) (session : Session)
    (decodedOpt : Option Claims) : RunResult σ :=
  match decodedOpt with
  | none =>
      { completions := [], session := session, writes := [], state := st,
        crashed := true }
  | some d =>
      let session := extendPromoted session (promoteDecodedToSession d) d
      if req.refreshCookie.isNone then
        { completions := [Completion.ok], session := session, writes := [],
          state := st, crashed := false }
      else if d.scope ≠ ScopeV.str "refresh" then
        if !(almostExpiredMiscalled d opts.sessionEarlyRefresh nowMs) then
          { completions := [Completion.ok], session := session, writes := [],
            state := st, crashed := false }
        else
          match authenticateCookie req.refreshCookie opts nowMs with
          | Except.error e =>
              let cleared : Session := {}
              { completions := [Completion.fail e, Completion.ok],
                session := cleared,
                writes := [newSessionCookieWrite opts req nowMs jtiS cleared.sub],
                state := st, crashed := false }
          | Except.ok refreshDecoded =>
              if session.sub ≠ refreshDecoded.bind Claims.sub then
                let cleared : Session := {}
                { completions :=
                    [Completion.fail (AuthError.http 401 "credentials mismatch"),
                     Completion.ok],
                  session := cleared,
                  writes := [newSessionCookieWrite opts req nowMs jtiS cleared.sub],
                  state := st, crashed := false }
              else
                { completions := [Completion.ok], session := session,
                  writes := [newSessionCookieWrite opts req nowMs jtiS session.sub],
                  state := st, crashed := false }
      else
        match authenticateCookie req.sessionCookie opts nowMs with
        | Except.error _ =>
            { completions := [Completion.ok], session := session,
              writes := [newSessionCookieWrite opts req nowMs jtiS session.sub],
              state := st, crashed := false }
        | Except.ok none =>
            { completions := [Completion.ok], session := session,
              writes := [newSessionCookieWrite opts req nowMs jtiS session.sub],
              state := st, crashed := false }
        | Except.ok (some sd) =>
            if sd.sub = session.sub ∧
                !(almostExpiredMiscalled sd opts.sessionEarlyRefresh nowMs) then
              { completions := [Completion.ok], session := session, writes := [],
                state := st, crashed := false }
            else
              { completions := [Completion.ok], session := session,
                writes := [newSessionCookieWrite opts req nowMs jtiS session.sub],
                state := st, crashed := false }

/-- The association middleware doRouteAssociateAndRefresh.  The refreshSub
oracle is the external tracker registry callback, threaded through an explicit
state; jti1 and jti2 are the at most two fresh uuids a single request can
consume, in order of generation.  A session whose sub is already truthy short
circuits; then the header credential is tried, then the refresh cookie; the
resolved subject is passed through the revocation oracle, and an unchanged
answer keeps the presented credential while a changed answer mints a brand
new refresh and session pair. -/
def doRouteAssociateAndRefresh {σ : Type} (opts : Options)
    (refreshSub : σ → Option String → Option String × σ)
    (req : Request) (session0 : Session) (nowMs : Nat) (jti1 jti2 : String)
    (st : σ) : RunResult σ :=
  let session := session0
  if subTruthy session.sub then
    { completions := [Completion.ok], session := session, writes := [],
      state := st, crashed := false }
  else
    match authenticateHeaderIfPresent req opts nowMs with
    | Except.error e =>
        { completions := [Completion.fail e], session := session, writes := [],
          state := st, crashed := false }
    | Except.ok (some decoded) =>
        let r := refreshSub st decoded.sub
        if r.1 = decoded.sub then
          nextWithExistingSession opts req nowMs jti1 r.2
            { session with mutation := true } (some decoded)
        else
          nextWithNewSession opts req nowMs jti1 jti2 r.2 session r.1
    | Except.ok none =>
        match authenticateCookie req.refreshCookie opts nowMs with
        | Except.error e =>
            { completions := [Completion.fail e], session := session,
              writes := [], state := st, crashed := false }
        | Except.ok decodedOpt =>
            let prevSub := decodedOpt.bind Claims.sub
            let r := refreshSub st prevSub
            if r.1 = prevSub then
              nextWithExistingSession opts req nowMs jti1 r.2 session decodedOpt
            else
              nextWithNewSession opts req nowMs jti1 jti2 r.2 session r.1

/-- The outcome of the mutation guard: exactly one continuation invocation and
the final session object (the guard never writes cookies and never crashes). -/
structure GuardResult where
  completion : Completion
  session : Session
deriving DecidableEq, Repr

/-- The mutation guard doRouteAuthenticateForMutation: a session already
marked mutation short circuits; otherwise a header credential is required
(its absence is the 401 credentials required error and a verification failure
propagates), its subject must equal the already-established session subject
(401 credentials mismatch otherwise), and on success the mutation flag is
set. -/
def doRouteAuthenticateForMutation (opts : Options) (req : Request)
    (session0 : Session) (nowMs : Nat) : GuardResult :=
  let session := session0
  if session.mutation then
    { completion := Completion.ok, session := session }
  else
    match authenticateHeaderIfPresent req opts nowMs with
    | Except.error e => { completion := Completion.fail e, session := session }
    | Except.ok none =>
        { completion := Completion.fail (AuthError.http 401 "credentials required"),
          session := session }
    | Except.ok (some decoded) =>
        if session.sub ≠ decoded.sub then
          { completion := Completion.fail (AuthError.http 401 "credentials mismatch"),
            session := session }
        else
          { completion := Completion.ok,
            session := { session with mutation := true } }

/-- The standalone verification entry point promiseAuthenticateForMutation:
verify the supplied token against the secret and issuer and resolve to its
subject, rejecting with the verification error otherwise. -/
def promiseAuthenticateForMutation (jwtSession : Option Jwt)
    (secret iss : String) (nowMs : Nat) : Except AuthError (Option String) :=
  match jwtVerify jwtSession secret iss nowMs with
  | Except.error e => Except.error e
  | Except.ok d => Except.ok d.sub

/-- A member record of the in-memory registry: a handle and the ordered
trackers it aggregates. -/
structure Member where
  handle : String
  trackers : List String
deriving DecidableEq, Repr

/-- The global trackerToMember map, modelled as an association list in which
the most recent insertion for a key shadows older ones (like Map.set). -/
structure Registry where
  entries : List (String × Member)
deriving DecidableEq, Repr

/-- Member.findByTracker: a lookup in the map; looking up an absent tracker
(the map key undefined) finds nothing. -/
def findByTracker (reg : Registry) (tracker : Option String) : Option Member :=
  match tracker with
  | none => none
  | some t => (reg.entries.find? (fun e => e.1 = t)).map (fun e => e.2)

/-- Member.insert called with only a tracker: the handle argument is absent,
so the handle is a freshly generated tracker string; the map is updated first
at the handle and then at the tracker, both to the new member. -/
def memberInsert (reg : Registry) (tracker handle : String) : Member × Registry :=
  let m : Member := { handle := handle, trackers := [tracker] }
  (m, { entries := (tracker, m) :: (handle, m) :: reg.entries })

/-- The state threaded through the refreshSub callback configured in the
server seed: the registry, the next two strings generateTracker would return
(the random supply, made explicit), and the member the callback attaches to
the request. -/
structure SeedState where
  reg : Registry
  freshSub : String
  freshHandle : String
  member : Option Member := none
deriving DecidableEq, Repr

/-- The refreshSub callback from the server seed: look the presented subject
up in the registry; when found, attach the member and answer the subject
unchanged; when missing (in particular when the presented subject is absent),
generate a new tracker string, insert a member for it, attach it, and answer
the new subject. -/
def seedRefreshSub (st : SeedState) (prevSub : Option String) :
    Option String × SeedState :=
  match findByTracker st.reg prevSub with
  | some m => (prevSub, { st with member := some m })
  | none =>
      let sub := st.freshSub
      let p := memberInsert st.reg sub st.freshHandle
      (some sub, { st with reg := p.2, member := some p.1 })

/-- Whether a permission name occurs in a scope claim once the scope is
coerced to an array, as the promotion helper does. -/
def scopeContains (s : ScopeV) (perm : String) : Bool :=
  match s with
  | ScopeV.arr l => l.contains perm
  | ScopeV.str x => [x].contains perm

/-!
Concrete fixtures used by closed counterexamples and witnesses: the
configuration the server seed passes to the session module (a one year
refresh lifetime, a five minute session lifetime, a one minute early-refresh
margin), a fixed clock, a revocation oracle that confirms every subject, and
a handful of tokens.
-/

/-- Configuration mirroring the values in the server seed. -/
def opts0 : Options :=
  { iss := "https://example.test", secret := "s",
    refreshMaxAge := 31536000000, sessionMaxAge := 300000,
    sessionEarlyRefresh := 60000 }

/-- A fixed request clock in milliseconds. -/
def now0 : Nat := 1700000000000

/-- A stateless revocation oracle that answers every subject unchanged. -/
def idOracle : Unit → Option String → Option String × Unit :=
  fun _ s => (s, ())

/-- A session-scope token for subject T3 signed with the configured secret,
expiring 30 seconds after now0 - inside the one minute early-refresh margin
but not yet expired. -/
def tokNear : Jwt :=
  { claims :=
      { jti := "jti-near", iss := "https://example.test", sub := some "T3",
        scope := ScopeV.str "session", iat := 1699999999, exp := 1700000030 },
    sig := "s" }

/-- A refresh-scope token for the same subject signed with a different
secret, so its verification fails. -/
def badRefresh : Jwt :=
  { claims :=
      { jti := "jti-bad", iss := "https://example.test", sub := some "T3",
        scope := ScopeV.str "refresh", iat := 1699999999, exp := 1999999999 },
    sig := "evil" }

/-- The request of the C1 scenario: an almost-expired session credential
presented in the Authorization header together with an invalid refresh
cookie. -/
def reqC1 : Request :=
  { authorization := some { scheme := "Bearer", jwt := some tokNear, rest := [] },
    refreshCookie := some badRefresh, sessionCookie := none, secure := false }

/-- A session-scope token for subject T5 that expired long before now0. -/
def tokExpired : Jwt :=
  { claims :=
      { jti := "jti-exp", iss := "https://example.test", sub := some "T5",
        scope := ScopeV.str "session", iat := 1600000000, exp := 1600000300 },
    sig := "s" }

/-- A session-scope token for subject T6 signed with the wrong secret. -/
def tokWrongSig : Jwt :=
  { claims :=
      { jti := "jti-sig", iss := "https://example.test", sub := some "T6",
        scope := ScopeV.str "session", iat := 1700000000, exp := 1999999999 },
    sig := "evil" }

/-- A request presenting no header and no cookie at all. -/
def reqNoCreds : Request :=
  { authorization := none, refreshCookie := none, sessionCookie := none,
    secure := false }

/-- A seed registry state with an empty registry and a fixed random supply. -/
def st0 : SeedState :=
  { reg := { entries := [] }, freshSub := "T1", freshHandle := "H1" }

/-- A revocation oracle that answers the absent subject unchanged (a
refreshSub implementation violating the precondition of the fresh-mint
path). -/
def noneOracle : Unit → Option String → Option String × Unit :=
  fun _ _ => (none, ())

/-- A revocation oracle that always resolves to a fixed fresh subject. -/
def constOracle : Unit → Option String → Option String × Unit :=
  fun _ _ => (some "TC", ())

/-- A valid session token for subject T2 carrying the sensitive flag. -/
def tokT2 : Jwt :=
  { claims :=
      { jti := "jti-t2", iss := "https://example.test", sub := some "T2",
        scope := ScopeV.arr ["session", "sensitive"], iat := 1700000000,
        exp := 1700000300 },
    sig := "s" }

/-- A request presenting tokT2 as a Bearer header and no cookie. -/
def reqT2 : Request :=
  { authorization := some { scheme := "Bearer", jwt := some tokT2, rest := [] },
    refreshCookie := none, sessionCookie := none, secure := true }

/-- A valid refresh token for subject T4. -/
def rtokT4 : Jwt :=
  { claims :=
      { jti := "jti-r4", iss := "https://example.test", sub := some "T4",
        scope := ScopeV.str "refresh", iat := 1690000000, exp := 1999999999 },
    sig := "s" }

/-- A valid session token for subject T4 expiring five minutes after now0. -/
def stokT4 : Jwt :=
  { claims :=
      { jti := "jti-s4", iss := "https://example.test", sub := some "T4",
        scope := ScopeV.str "session", iat := 1700000000, exp := 1700000300 },
    sig := "s" }

/-- A request presenting no header and both T4 cookies. -/
def reqT4 : Request :=
  { authorization := none, refreshCookie := some rtokT4,
    sessionCookie := some stokT4, secure := false }

/-!
Structural lemmas about the middleware, shared by several claim theorems:
the reachable outcomes of the existing-session helper (with the constant
false near-expiry test the dead branches disappear), the outcome of the
fresh-mint helper, and a case catalogue of the whole association run.
-/

theorem existing_some {σ : Type} (opts : Options) (req : Request) (nowMs : Nat)
    (jtiS : String) (st : σ) (s : Session) (d : Claims) :
    (nextWithExistingSession opts req nowMs jtiS st s (some d)).crashed = false
    ∧ (nextWithExistingSession opts req nowMs jtiS st s (some d)).completions =
        [Completion.ok]
    ∧ (nextWithExistingSession opts req nowMs jtiS st s (some d)).state = st
    ∧ (nextWithExistingSession opts req nowMs jtiS st s (some d)).session =
        extendPromoted s (promoteDecodedToSession d) d
    ∧ ((nextWithExistingSession opts req nowMs jtiS st s (some d)).writes = []
        ∨ (nextWithExistingSession opts req nowMs jtiS st s (some d)).writes =
            [newSessionCookieWrite opts req nowMs jtiS
              (extendPromoted s (promoteDecodedToSession d) d).sub])
    ∧ (req.refreshCookie = none →
        (nextWithExistingSession opts req nowMs jtiS st s (some d)).writes = []) := by
  unfold nextWithExistingSession
  simp only [almostExpiredMiscalled, Bool.not_false, if_true]
  by_cases hrc : req.refreshCookie.isNone
  · simp [hrc]
  · simp only [hrc, if_false]
    have hrcne : ¬ req.refreshCookie = none := by
      intro h
      rw [h] at hrc
      exact hrc rfl
    by_cases hscope : d.scope ≠ ScopeV.str "refresh"
    · simp [hscope, hrcne]
    · simp only [hscope, if_false]
      rcases hac : authenticateCookie req.sessionCookie opts nowMs with e | sd
      · simp [hrcne]
      · rcases sd with _ | sd
        · simp [hrcne]
        · by_cases hsub : sd.sub = (extendPromoted s (promoteDecodedToSession d) d).sub
          · simp [hsub, hrcne]
          · simp [hsub, hrcne]

theorem new_session_result {σ : Type} (opts : Options) (req : Request)
    (nowMs : Nat) (jtiR jtiS : String) (st : σ) (s : Session)
    (validSub : Option String) :
    (nextWithNewSession opts req nowMs jtiR jtiS st s validSub).crashed = false
    ∧ (nextWithNewSession opts req nowMs jtiR jtiS st s validSub).completions =
        [Completion.ok]
    ∧ (nextWithNewSession opts req nowMs jtiR jtiS st s validSub).state = st
    ∧ (nextWithNewSession opts req nowMs jtiR jtiS st s validSub).writes =
        [newRefreshCookieWrite opts req nowMs jtiR validSub,
         newSessionCookieWrite opts req nowMs jtiS validSub]
    ∧ (nextWithNewSession opts req nowMs jtiR jtiS st s validSub).session.sub =
        validSub := by
  refine ⟨rfl, rfl, rfl, rfl, rfl⟩

theorem run_cases {σ : Type} (opts : Options)
    (oracle : σ → Option String → Option String × σ) (req : Request)
    (s0 : Session) (nowMs : Nat) (j1 j2 : String) (st : σ) :
    ((doRouteAssociateAndRefresh opts oracle req s0 nowMs j1 j2 st).state = st
      ∨ ∃ p, (doRouteAssociateAndRefresh opts oracle req s0 nowMs j1 j2 st).state =
          (oracle st p).2)
    ∧ ((doRouteAssociateAndRefresh opts oracle req s0 nowMs j1 j2 st).writes = []
        ∨ (∃ w, (doRouteAssociateAndRefresh opts oracle req s0 nowMs j1 j2 st).writes = [w]
            ∧ w.slot = CookieSlot.session)
        ∨ (∃ w1 w2,
            (doRouteAssociateAndRefresh opts oracle req s0 nowMs j1 j2 st).writes = [w1, w2]
            ∧ w1.slot = CookieSlot.refresh ∧ w2.slot = CookieSlot.session))
    ∧ (∀ e, Completion.fail e ∈
          (doRouteAssociateAndRefresh opts oracle req s0 nowMs j1 j2 st).completions →
        authenticateHeaderIfPresent req opts nowMs = Except.error e
        ∨ authenticateCookie req.refreshCookie opts nowMs = Except.error e)
    ∧ ((doRouteAssociateAndRefresh opts oracle req s0 nowMs j1 j2 st).crashed = true →
        (oracle st none).1 = none) := by
  unfold doRouteAssociateAndRefresh
  by_cases hsub : subTruthy s0.sub = true
  · rw [if_pos hsub]
    exact ⟨Or.inl rfl, Or.inl rfl, by simp, by simp⟩
  · rw [if_neg hsub]
    rcases hh : authenticateHeaderIfPresent req opts nowMs with e | d
    · dsimp only
      refine ⟨Or.inl rfl, Or.inl rfl, ?_, by simp⟩
      intro e2 hmem
      simp only [List.mem_singleton, Completion.fail.injEq] at hmem
      subst hmem
      exact Or.inl rfl
    · rcases d with _ | d
      · rcases hc : authenticateCookie req.refreshCookie opts nowMs with e | dOpt
        · dsimp only
          refine ⟨Or.inl rfl, Or.inl rfl, ?_, by simp⟩
          intro e2 hmem
          simp only [List.mem_singleton, Completion.fail.injEq] at hmem
          subst hmem
          exact Or.inr rfl
        · rcases dOpt with _ | d
          · dsimp only [Option.none_bind]
            by_cases hor : (oracle st none).1 = none
            · rw [if_pos hor]
              refine ⟨Or.inr ⟨none, rfl⟩, Or.inl rfl, ?_, fun _ => hor⟩
              intro e hmem
              simp [nextWithExistingSession] at hmem
            · rw [if_neg hor]
              obtain ⟨hcr, hco, hst, hw, hsu⟩ :=
                new_session_result opts req nowMs j1 j2 (oracle st none).2 s0
                  (oracle st none).1
              refine ⟨Or.inr ⟨none, hst⟩,
                Or.inr (Or.inr ⟨_, _, hw, rfl, rfl⟩), ?_, ?_⟩
              · intro e hmem
                rw [hco] at hmem
                simp at hmem
              · intro hcrash
                rw [hcr] at hcrash
                exact absurd hcrash (by simp)
          · dsimp only [Option.some_bind]
            by_cases hor : (oracle st d.sub).1 = d.sub
            · rw [if_pos hor]
              obtain ⟨hcr, hco, hst, _, hw, _⟩ :=
                existing_some opts req nowMs j1 (oracle st d.sub).2 s0 d
              refine ⟨Or.inr ⟨d.sub, hst⟩, ?_, ?_, ?_⟩
              · rcases hw with hw | hw
                · exact Or.inl hw
                · exact Or.inr (Or.inl ⟨_, hw, rfl⟩)
              · intro e hmem
                rw [hco] at hmem
                simp at hmem
              · intro hcrash
                rw [hcr] at hcrash
                exact absurd hcrash (by simp)
            · rw [if_neg hor]
              obtain ⟨hcr, hco, hst, hw, hsu⟩ :=
                new_session_result opts req nowMs j1 j2 (oracle st d.sub).2 s0
                  (oracle st d.sub).1
              refine ⟨Or.inr ⟨d.sub, hst⟩,
                Or.inr (Or.inr ⟨_, _, hw, rfl, rfl⟩), ?_, ?_⟩
              · intro e hmem
                rw [hco] at hmem
                simp at hmem
              · intro hcrash
                rw [hcr] at hcrash
                exact absurd hcrash (by simp)
      · dsimp only
        by_cases hor : (oracle st d.sub).1 = d.sub
        · rw [if_pos hor]
          obtain ⟨hcr, hco, hst, _, hw, _⟩ :=
            existing_some opts req nowMs j1 (oracle st d.sub).2
              { s0 with mutation := true } d
          refine ⟨Or.inr ⟨d.sub, hst⟩, ?_, ?_, ?_⟩
          · rcases hw with hw | hw
            · exact Or.inl hw
            · exact Or.inr (Or.inl ⟨_, hw, rfl⟩)
          · intro e hmem
            rw [hco] at hmem
            simp at hmem
          · intro hcrash
            rw [hcr] at hcrash
            exact absurd hcrash (by simp)
        · rw [if_neg hor]
          obtain ⟨hcr, hco, hst, hw, hsu⟩ :=
            new_session_result opts req nowMs j1 j2 (oracle st d.sub).2 s0
              (oracle st d.sub).1
          refine ⟨Or.inr ⟨d.sub, hst⟩,
            Or.inr (Or.inr ⟨_, _, hw, rfl, rfl⟩), ?_, ?_⟩
          · intro e hmem
            rw [hco] at hmem
            simp at hmem
          · intro hcrash
            rw [hcr] at hcrash
            exact absurd hcrash (by simp)


/-- C9: signing a claims set with a secret and issuer and verifying the
result with the same secret and issuer at any clock earlier than the expiry
second succeeds and returns the original jti, iss, sub and scope unchanged
(together with the iat and exp the signer added). -/
theorem sign_verify_roundtrip (jti iss : String) (sub : Option String)
    (scope : ScopeV) (secret : String) (expiresInSec nowSignMs nowVerifyMs : Nat)
    (h : nowVerifyMs / 1000 < nowSignMs / 1000 + expiresInSec) :
    jwtVerify (some (jwtSign jti iss sub scope secret expiresInSec nowSignMs))
        secret iss nowVerifyMs =
      Except.ok
        { jti := jti, iss := iss, sub := sub, scope := scope,
          iat := nowSignMs / 1000, exp := nowSignMs / 1000 + expiresInSec } := by
  simp only [jwtVerify, jwtSign]
  rw [if_neg (by simp), if_neg (by omega), if_neg (by simp)]

/-- Closed witness for the C9 round-trip theorem at a concrete claims set. -/
theorem sign_verify_roundtrip_witness :
    jwtVerify
        (some (jwtSign "jti-w" "https://example.test" (some "TW")
          (ScopeV.arr ["session", "moderate"]) "s" 300 1700000000000))
        "s" "https://example.test" 1700000100000 =
      Except.ok
        { jti := "jti-w", iss := "https://example.test", sub := some "TW",
          scope := ScopeV.arr ["session", "moderate"],
          iat := 1700000000, exp := 1700000300 } :=
  sign_verify_roundtrip "jti-w" "https://example.test" (some "TW")
    (ScopeV.arr ["session", "moderate"]) "s" 300 1700000000000 1700000100000
    (by decide)

/-- C1: on a request whose driving credential is a session-scoped header
token that is almost expired (by the almostExpired definition and the
configured margin) accompanied by a refresh cookie whose verification fails,
the middleware neither fails with 401 nor clears the context: the near-expiry
test at the call site is constant false (the margin number is passed where
the helper expects the options record), so the request completes normally
with the context retained and no cookie written, and the refresh cookie is
never re-verified. -/
theorem almost_expired_mismatch_not_rejected :
    almostExpired tokNear.claims opts0 now0 = true
    ∧ now0 / 1000 < tokNear.claims.exp
    ∧ jwtVerify (some badRefresh) opts0.secret opts0.iss now0 =
        Except.error AuthError.jwtBadSignature
    ∧ (doRouteAssociateAndRefresh opts0 idOracle reqC1 {} now0 "u1" "u2"
        ()).completions = [Completion.ok]
    ∧ (doRouteAssociateAndRefresh opts0 idOracle reqC1 {} now0 "u1" "u2"
        ()).writes = []
    ∧ (doRouteAssociateAndRefresh opts0 idOracle reqC1 {} now0 "u1" "u2"
        ()).session.sub = some "T3"
    ∧ (doRouteAssociateAndRefresh opts0 idOracle reqC1 {} now0 "u1" "u2"
        ()).session.mutation = true := by
  refine ⟨by decide, by decide, by rfl, by decide, by decide, by decide, by decide⟩

/-- C4: a request with no Authorization header and no cookies, run against
the registry callback of the server seed, completes normally, mints exactly
one refresh cookie followed by exactly one session cookie, both for the
freshly resolved subject, promotes that subject into the context, and adds
exactly one new member record to the registry (keyed by the new tracker and
by its generated handle). -/
theorem fresh_request_mints_refresh_and_session (opts : Options) (sec : Bool)
    (nowMs : Nat) (jti1 jti2 : String) (st : SeedState) :
    (doRouteAssociateAndRefresh opts seedRefreshSub
        { authorization := none, refreshCookie := none, sessionCookie := none,
          secure := sec } {} nowMs jti1 jti2 st).completions = [Completion.ok]
    ∧ (doRouteAssociateAndRefresh opts seedRefreshSub
        { authorization := none, refreshCookie := none, sessionCookie := none,
          secure := sec } {} nowMs jti1 jti2 st).crashed = false
    ∧ (∃ rw sw,
        (doRouteAssociateAndRefresh opts seedRefreshSub
          { authorization := none, refreshCookie := none, sessionCookie := none,
            secure := sec } {} nowMs jti1 jti2 st).writes = [rw, sw]
        ∧ rw.slot = CookieSlot.refresh ∧ sw.slot = CookieSlot.session
        ∧ rw.jwt.claims.sub = some st.freshSub
        ∧ sw.jwt.claims.sub = some st.freshSub)
    ∧ (doRouteAssociateAndRefresh opts seedRefreshSub
        { authorization := none, refreshCookie := none, sessionCookie := none,
          secure := sec } {} nowMs jti1 jti2 st).session.sub = some st.freshSub
    ∧ (doRouteAssociateAndRefresh opts seedRefreshSub
        { authorization := none, refreshCookie := none, sessionCookie := none,
          secure := sec } {} nowMs jti1 jti2 st).state.reg.entries =
        (st.freshSub, { handle := st.freshHandle, trackers := [st.freshSub] })
          :: (st.freshHandle, { handle := st.freshHandle, trackers := [st.freshSub] })
          :: st.reg.entries := by
  refine ⟨by rfl, by rfl, ⟨_, _, by rfl, by rfl, by rfl, by rfl, by rfl⟩, by rfl, by rfl⟩

/-!
Error provenance lemmas: which error values the authentication helpers can
produce, and what the server error chain answers for them.
-/

theorem jwtVerify_error_statusless (tok : Option Jwt) (secret iss : String)
    (nowMs : Nat) (e : AuthError)
    (h : jwtVerify tok secret iss nowMs = Except.error e) :
    AuthError.status e = none := by
  unfold jwtVerify at h
  rcases tok with _ | t
  · simp only [Except.error.injEq] at h
    subst h
    rfl
  · dsimp only at h
    by_cases h1 : t.sig ≠ secret
    · rw [if_pos h1] at h
      simp only [Except.error.injEq] at h
      subst h
      rfl
    · rw [if_neg h1] at h
      by_cases h2 : nowMs / 1000 ≥ t.claims.exp
      · rw [if_pos h2] at h
        simp only [Except.error.injEq] at h
        subst h
        rfl
      · rw [if_neg h2] at h
        by_cases h3 : t.claims.iss ≠ iss
        · rw [if_pos h3] at h
          simp only [Except.error.injEq] at h
          subst h
          rfl
        · rw [if_neg h3] at h
          exact absurd h (by simp)

theorem authHeader_error_status (req : Request) (opts : Options) (nowMs : Nat)
    (e : AuthError)
    (h : authenticateHeaderIfPresent req opts nowMs = Except.error e) :
    AuthError.status e = some 401 ∨ AuthError.status e = none := by
  unfold authenticateHeaderIfPresent at h
  rcases hA : req.authorization with _ | hd
  · rw [hA] at h
    exact absurd h (by simp)
  · rw [hA] at h
    dsimp only at h
    by_cases h1 : hd.rest ≠ []
    · rw [if_pos h1] at h
      simp only [Except.error.injEq] at h
      subst h
      exact Or.inl rfl
    · rw [if_neg h1] at h
      by_cases h2 : ¬ schemeIsBearer hd.scheme = true
      · rw [if_pos h2] at h
        simp only [Except.error.injEq] at h
        subst h
        exact Or.inl rfl
      · rw [if_neg h2] at h
        rcases hv : jwtVerify hd.jwt opts.secret opts.iss nowMs with e2 | d
        · rw [hv] at h
          simp only [Except.map, Except.error.injEq] at h
          subst h
          exact Or.inr (jwtVerify_error_statusless hd.jwt opts.secret opts.iss nowMs e2 hv)
        · rw [hv] at h
          exact absurd h (by simp [Except.map])

theorem authCookie_error_statusless (cookie : Option Jwt) (opts : Options)
    (nowMs : Nat) (e : AuthError)
    (h : authenticateCookie cookie opts nowMs = Except.error e) :
    AuthError.status e = none := by
  unfold authenticateCookie at h
  rcases cookie with _ | t
  · exact absurd h (by simp)
  · dsimp only at h
    rcases hv : jwtVerify (some t) opts.secret opts.iss nowMs with e2 | d
    · rw [hv] at h
      simp only [Except.map, Except.error.injEq] at h
      subst h
      exact jwtVerify_error_statusless (some t) opts.secret opts.iss nowMs e2 hv
    · rw [hv] at h
      exact absurd h (by simp [Except.map])

theorem status_ok_response (e : AuthError)
    (h : AuthError.status e = some 401 ∨ AuthError.status e = none) :
    responseStatusFor e ≠ 403 ∧ responseStatusFor e ≠ 404 := by
  rcases h with h | h <;> simp [responseStatusFor, h]

/-- C2 counterexample: a verification failure (an expired Bearer session
token at the mutation guard) terminates the request with the propagated
codec error, which carries no 401 status; the server error chain answers
500 for it, not 401. -/
theorem verification_error_without_401_status :
    (doRouteAuthenticateForMutation opts0
        { authorization := some { scheme := "Bearer", jwt := some tokExpired, rest := [] },
          refreshCookie := none, sessionCookie := none, secure := false }
        { sub := some "T5" } now0).completion = Completion.fail AuthError.jwtExpired
    ∧ AuthError.jwtExpired.status ≠ some 401
    ∧ responseStatusFor AuthError.jwtExpired = 500 :=
  ⟨by decide, by decide, by decide⟩

/-- C2 (amended): every error the core yields is either one of the four
errors it constructs itself, which carry HTTP status 401, or a propagated
token-verification error, which carries no status at all (and surfaces as
500); in particular the core never yields an error with status 403 or 404.
The three conjuncts cover the association middleware, the mutation guard and
the standalone verification entry point. -/
theorem core_errors_401_or_statusless :
    (∀ (σ : Type) (oracle : σ → Option String → Option String × σ)
        (opts : Options) (req : Request) (s0 : Session) (nowMs : Nat)
        (j1 j2 : String) (st : σ) (e : AuthError),
      Completion.fail e ∈
          (doRouteAssociateAndRefresh opts oracle req s0 nowMs j1 j2 st).completions →
        (AuthError.status e = some 401 ∨ AuthError.status e = none)
        ∧ responseStatusFor e ≠ 403 ∧ responseStatusFor e ≠ 404)
    ∧ (∀ (opts : Options) (req : Request) (s0 : Session) (nowMs : Nat)
        (e : AuthError),
      (doRouteAuthenticateForMutation opts req s0 nowMs).completion =
          Completion.fail e →
        (AuthError.status e = some 401 ∨ AuthError.status e = none)
        ∧ responseStatusFor e ≠ 403 ∧ responseStatusFor e ≠ 404)
    ∧ (∀ (tok : Option Jwt) (secret iss : String) (nowMs : Nat) (e : AuthError),
      promiseAuthenticateForMutation tok secret iss nowMs = Except.error e →
        (AuthError.status e = some 401 ∨ AuthError.status e = none)
        ∧ responseStatusFor e ≠ 403 ∧ responseStatusFor e ≠ 404) := by
  refine ⟨?_, ?_, ?_⟩
  · intro σ oracle opts req s0 nowMs j1 j2 st e hmem
    obtain ⟨_, _, horigin, _⟩ := run_cases opts oracle req s0 nowMs j1 j2 st
    have hstat : AuthError.status e = some 401 ∨ AuthError.status e = none := by
      rcases horigin e hmem with h | h
      · exact authHeader_error_status req opts nowMs e h
      · exact Or.inr (authCookie_error_statusless req.refreshCookie opts nowMs e h)
    exact ⟨hstat, status_ok_response e hstat⟩
  · intro opts req s0 nowMs e hfail
    unfold doRouteAuthenticateForMutation at hfail
    by_cases hmut : s0.mutation = true
    · rw [if_pos hmut] at hfail
      exact absurd hfail (by simp)
    · rw [if_neg hmut] at hfail
      rcases hh : authenticateHeaderIfPresent req opts nowMs with e2 | d
      · rw [hh] at hfail
        simp only [Completion.fail.injEq] at hfail
        subst hfail
        have hstat := authHeader_error_status req opts nowMs e2 hh
        exact ⟨hstat, status_ok_response e2 hstat⟩
      · rw [hh] at hfail
        rcases d with _ | d
        · simp only [Completion.fail.injEq] at hfail
          subst hfail
          exact ⟨Or.inl rfl, status_ok_response _ (Or.inl rfl)⟩
        · dsimp only at hfail
          by_cases hne : s0.sub ≠ d.sub
          · rw [if_pos hne] at hfail
            simp only [Completion.fail.injEq] at hfail
            subst hfail
            exact ⟨Or.inl rfl, status_ok_response _ (Or.inl rfl)⟩
          · rw [if_neg hne] at hfail
            exact absurd hfail (by simp)
  · intro tok secret iss nowMs e herr
    unfold promiseAuthenticateForMutation at herr
    rcases hv : jwtVerify tok secret iss nowMs with e2 | d
    · rw [hv] at herr
      simp only [Except.error.injEq] at herr
      subst herr
      have hstat : AuthError.status e2 = some 401 ∨ AuthError.status e2 = none :=
        Or.inr (jwtVerify_error_statusless tok secret iss nowMs e2 hv)
      exact ⟨hstat, status_ok_response e2 hstat⟩
    · rw [hv] at herr
      exact absurd herr (by simp)

/-- Closed witness for the C2 theorem: the credentials required error of the
guard, obtained on a request with no credentials at all. -/
theorem core_errors_401_or_statusless_witness :
    (AuthError.status (AuthError.http 401 "credentials required") = some 401
      ∨ AuthError.status (AuthError.http 401 "credentials required") = none)
    ∧ responseStatusFor (AuthError.http 401 "credentials required") ≠ 403
    ∧ responseStatusFor (AuthError.http 401 "credentials required") ≠ 404 :=
  core_errors_401_or_statusless.2.1 opts0 reqNoCreds {} now0
    (AuthError.http 401 "credentials required") (by decide)

/-- C5 counterexample: at the mutation guard a verification failure (a
Bearer token signed with the wrong secret) is fatal, but the propagated
error carries no 401 status. -/
theorem guard_verification_error_without_401_status :
    (doRouteAuthenticateForMutation opts0
        { authorization := some { scheme := "bearer", jwt := some tokWrongSig, rest := [] },
          refreshCookie := none, sessionCookie := none, secure := false }
        { sub := some "T6" } now0).completion =
      Completion.fail AuthError.jwtBadSignature
    ∧ AuthError.jwtBadSignature.status ≠ some 401 :=
  ⟨by decide, by decide⟩

/-- C5 (amended): on a session context not yet marked for mutation, the
guard succeeds and sets the mutation flag exactly when the request carries a
valid header-presented credential whose subject equals the established
context subject; an absent header is the fatal 401 credentials required
error, a verification failure is fatal with the propagated verification
error (which carries no 401 status), and a subject disagreement is the
fatal 401 credentials mismatch error. -/
theorem mutation_guard_characterization (opts : Options) (req : Request)
    (session0 : Session) (nowMs : Nat) (hmut : session0.mutation = false) :
    (((doRouteAuthenticateForMutation opts req session0 nowMs).completion =
          Completion.ok
        ∧ (doRouteAuthenticateForMutation opts req session0 nowMs).session.mutation =
          true)
      ↔ (∃ d, authenticateHeaderIfPresent req opts nowMs = Except.ok (some d)
          ∧ d.sub = session0.sub))
    ∧ (req.authorization = none →
        (doRouteAuthenticateForMutation opts req session0 nowMs).completion =
          Completion.fail (AuthError.http 401 "credentials required"))
    ∧ (∀ e, authenticateHeaderIfPresent req opts nowMs = Except.error e →
        (doRouteAuthenticateForMutation opts req session0 nowMs).completion =
          Completion.fail e)
    ∧ (∀ d, authenticateHeaderIfPresent req opts nowMs = Except.ok (some d) →
        d.sub ≠ session0.sub →
        (doRouteAuthenticateForMutation opts req session0 nowMs).completion =
          Completion.fail (AuthError.http 401 "credentials mismatch")) := by
  have hguard : doRouteAuthenticateForMutation opts req session0 nowMs =
      (match authenticateHeaderIfPresent req opts nowMs with
        | Except.error e => { completion := Completion.fail e, session := session0 }
        | Except.ok none =>
            { completion := Completion.fail (AuthError.http 401 "credentials required"),
              session := session0 }
        | Except.ok (some decoded) =>
            if session0.sub ≠ decoded.sub then
              { completion := Completion.fail (AuthError.http 401 "credentials mismatch"),
                session := session0 }
            else
              { completion := Completion.ok,
                session := { session0 with mutation := true } }) := by
    unfold doRouteAuthenticateForMutation
    rw [if_neg (by simp [hmut])]
  rw [hguard]
  rcases hh : authenticateHeaderIfPresent req opts nowMs with e | d
  · refine ⟨?_, ?_, ?_, ?_⟩
    · constructor
      · intro hcontra
        exact absurd hcontra.1 (by simp)
      · intro hcontra
        obtain ⟨d, hd, _⟩ := hcontra
        simp at hd
    · intro hA
      have : authenticateHeaderIfPresent req opts nowMs = Except.ok none := by
        unfold authenticateHeaderIfPresent
        rw [hA]
      rw [this] at hh
      exact absurd hh (by simp)
    · intro e2 he2
      simp only [Except.error.injEq] at he2
      subst he2
      rfl
    · intro d hd
      simp at hd
  · rcases d with _ | d
    · refine ⟨?_, ?_, ?_, ?_⟩
      · constructor
        · intro hcontra
          exact absurd hcontra.1 (by simp)
        · intro hcontra
          obtain ⟨d, hd, _⟩ := hcontra
          simp at hd
      · intro _
        rfl
      · intro e2 he2
        simp at he2
      · intro d hd
        simp at hd
    · dsimp only
      by_cases hne : session0.sub ≠ d.sub
      · rw [if_pos hne]
        refine ⟨?_, ?_, ?_, ?_⟩
        · constructor
          · intro hcontra
            exact absurd hcontra.1 (by simp)
          · intro hcontra
            obtain ⟨d2, hd2, hsub2⟩ := hcontra
            simp only [Except.ok.injEq, Option.some.injEq] at hd2
            subst hd2
            exact absurd hsub2.symm hne
        · intro hA
          have : authenticateHeaderIfPresent req opts nowMs = Except.ok none := by
            unfold authenticateHeaderIfPresent
            rw [hA]
          rw [this] at hh
          exact absurd hh (by simp)
        · intro e2 he2
          simp at he2
        · intro d2 hd2 _
          rfl
      · rw [if_neg hne]
        refine ⟨?_, ?_, ?_, ?_⟩
        · constructor
          · intro _
            exact ⟨d, rfl, (not_not.mp hne).symm⟩
          · intro _
            exact ⟨rfl, rfl⟩
        · intro hA
          have : authenticateHeaderIfPresent req opts nowMs = Except.ok none := by
            unfold authenticateHeaderIfPresent
            rw [hA]
          rw [this] at hh
          exact absurd hh (by simp)
        · intro e2 he2
          simp at he2
        · intro d2 hd2 hsub2
          simp only [Except.ok.injEq, Option.some.injEq] at hd2
          subst hd2
          exact absurd (not_not.mp hne).symm hsub2

/-- Closed witness for the C5 theorem: the no-header instantiation yields
the 401 credentials required failure. -/
theorem mutation_guard_characterization_witness :
    (doRouteAuthenticateForMutation opts0 reqNoCreds {} now0).completion =
      Completion.fail (AuthError.http 401 "credentials required") :=
  (mutation_guard_characterization opts0 reqNoCreds {} now0 (by decide)).2.1 (by decide)

/-- C7: on every request the association middleware writes the refresh slot
at most once and the session slot at most once; instantiated at the registry
callback of the server seed, the registry is either untouched or extended by
exactly one new member record (registered under the new tracker and its
generated handle). -/
theorem at_most_one_write_per_slot :
    (∀ (σ : Type) (oracle : σ → Option String → Option String × σ)
        (opts : Options) (req : Request) (s0 : Session) (nowMs : Nat)
        (j1 j2 : String) (st : σ),
      ((doRouteAssociateAndRefresh opts oracle req s0 nowMs j1 j2 st).writes.filter
          (fun w => w.slot == CookieSlot.refresh)).length ≤ 1
      ∧ ((doRouteAssociateAndRefresh opts oracle req s0 nowMs j1 j2 st).writes.filter
          (fun w => w.slot == CookieSlot.session)).length ≤ 1)
    ∧ (∀ (opts : Options) (req : Request) (s0 : Session) (nowMs : Nat)
        (j1 j2 : String) (st : SeedState),
      (doRouteAssociateAndRefresh opts seedRefreshSub req s0 nowMs j1 j2
            st).state.reg.entries = st.reg.entries
        ∨ (doRouteAssociateAndRefresh opts seedRefreshSub req s0 nowMs j1 j2
            st).state.reg.entries =
          (st.freshSub, { handle := st.freshHandle, trackers := [st.freshSub] })
            :: (st.freshHandle, { handle := st.freshHandle, trackers := [st.freshSub] })
            :: st.reg.entries) := by
  constructor
  · intro σ oracle opts req s0 nowMs j1 j2 st
    obtain ⟨_, hw, _, _⟩ := run_cases opts oracle req s0 nowMs j1 j2 st
    rcases hw with h | ⟨w, h, hs⟩ | ⟨w1, w2, h, h1, h2⟩
    · rw [h]
      exact ⟨Nat.zero_le 1, Nat.zero_le 1⟩
    · rw [h]
      refine ⟨?_, ?_⟩
      · simp only [List.filter, hs]
        exact Nat.zero_le 1
      · simp only [List.filter, hs]
        exact Nat.le_refl 1
    · rw [h]
      refine ⟨?_, ?_⟩
      · simp only [List.filter, h1, h2]
        exact Nat.le_refl 1
      · simp only [List.filter, h1, h2]
        exact Nat.le_refl 1
  · intro opts req s0 nowMs j1 j2 st
    obtain ⟨hstate, _, _, _⟩ := run_cases opts seedRefreshSub req s0 nowMs j1 j2 st
    rcases hstate with h | ⟨p, hp⟩
    · rw [h]
      exact Or.inl rfl
    · rw [hp]
      unfold seedRefreshSub
      rcases hf : findByTracker st.reg p with _ | m
    

      · dsimp only
        exact Or.inr rfl
      · dsimp only
        exact Or.inl rfl

/-- C8: whenever a request mints both cookies, the write trace is exactly
the refresh write followed by the session write, so no response ever carries
a newly minted session cookie without the refresh cookie minted before it. -/
theorem refresh_written_before_session {σ : Type} (opts : Options)
    (oracle : σ → Option String → Option String × σ) (req : Request)
    (s0 : Session) (nowMs : Nat) (j1 j2 : String) (st : σ)
    (hr : ∃ w ∈ (doRouteAssociateAndRefresh opts oracle req s0 nowMs j1 j2 st).writes,
        w.slot = CookieSlot.refresh)
    (_hs : ∃ w ∈ (doRouteAssociateAndRefresh opts oracle req s0 nowMs j1 j2 st).writes,
        w.slot = CookieSlot.session) :
    ∃ wr ws,
      (doRouteAssociateAndRefresh opts oracle req s0 nowMs j1 j2 st).writes = [wr, ws]
      ∧ wr.slot = CookieSlot.refresh ∧ ws.slot = CookieSlot.session := by
  obtain ⟨_, hw, _, _⟩ := run_cases opts oracle req s0 nowMs j1 j2 st
  rcases hw with h | ⟨w, h, hslot⟩ | ⟨w1, w2, h, h1, h2⟩
  · obtain ⟨w0, hm, _⟩ := hr
    rw [h] at hm
    simp at hm
  · obtain ⟨w0, hm, hr0⟩ := hr
    rw [h] at hm
    simp only [List.mem_singleton] at hm
    subst hm
    rw [hslot] at hr0
    simp at hr0
  · exact ⟨w1, w2, h, h1, h2⟩

/-- Closed witness for the C8 theorem at a fresh-mint request. -/
theorem refresh_written_before_session_witness :
    ∃ wr ws,
      (doRouteAssociateAndRefresh opts0 seedRefreshSub reqNoCreds {} now0 "u1" "u2"
          st0).writes = [wr, ws]
      ∧ wr.slot = CookieSlot.refresh ∧ ws.slot = CookieSlot.session :=
  refresh_written_before_session opts0 seedRefreshSub reqNoCreds {} now0 "u1" "u2" st0
    (by decide) (by decide)

/-- C3: a request presenting a valid Bearer token whose subject the
revocation oracle returns unchanged ends with a context marked for mutation,
carrying the token subject and exactly the sensitive and moderate flags
contained in the token scope; and when no refresh cookie accompanies the
request, no cookie is written. -/
theorem valid_header_session_context {σ : Type}
    (oracle : σ → Option String → Option String × σ) (opts : Options)
    (req : Request) (scheme : String) (tok : Jwt) (nowMs : Nat)
    (j1 j2 : String) (st : σ)
    (hreq : req.authorization = some { scheme := scheme, jwt := some tok, rest := [] })
    (hscheme : schemeIsBearer scheme = true)
    (hsig : tok.sig = opts.secret)
    (hexp : nowMs / 1000 < tok.claims.exp)
    (hiss : tok.claims.iss = opts.iss)
    (horacle : (oracle st tok.claims.sub).1 = tok.claims.sub) :
    (doRouteAssociateAndRefresh opts oracle req {} nowMs j1 j2 st).crashed = false
    ∧ (doRouteAssociateAndRefresh opts oracle req {} nowMs j1 j2 st).completions =
        [Completion.ok]
    ∧ (doRouteAssociateAndRefresh opts oracle req {} nowMs j1 j2 st).session.mutation =
        true
    ∧ (doRouteAssociateAndRefresh opts oracle req {} nowMs j1 j2 st).session.sub =
        tok.claims.sub
    ∧ (doRouteAssociateAndRefresh opts oracle req {} nowMs j1 j2 st).session.sensitive =
        scopeContains tok.claims.scope "sensitive"
    ∧ (doRouteAssociateAndRefresh opts oracle req {} nowMs j1 j2 st).session.moderate =
        scopeContains tok.claims.scope "moderate"
    ∧ (req.refreshCookie = none →
        (doRouteAssociateAndRefresh opts oracle req {} nowMs j1 j2 st).writes = []) := by
  have hv : jwtVerify (some tok) opts.secret opts.iss nowMs = Except.ok tok.claims := by
    unfold jwtVerify
    dsimp only
    rw [if_neg (by simp [hsig]), if_neg (by omega), if_neg (by simp [hiss])]
  have hauth : authenticateHeaderIfPresent req opts nowMs = Except.ok (some tok.claims) := by
    unfold authenticateHeaderIfPresent
    rw [hreq]
    dsimp only
    rw [if_neg (by simp), if_neg (by simp [hscheme]), hv]
    rfl
  have hrun : doRouteAssociateAndRefresh opts oracle req {} nowMs j1 j2 st =
      nextWithExistingSession opts req nowMs j1 (oracle st tok.claims.sub).2
        { ({} : Session) with mutation := true } (some tok.claims) := by
    unfold doRouteAssociateAndRefresh
    rw [if_neg (by decide), hauth]
    dsimp only
    rw [if_pos horacle]
  obtain ⟨hcr, hco, _, hsess, _, hwempty⟩ :=
    existing_some opts req nowMs j1 (oracle st tok.claims.sub).2
      { ({} : Session) with mutation := true } tok.claims
  rw [hrun]
  refine ⟨hcr, hco, ?_, ?_, ?_, ?_, hwempty⟩
  · rw [hsess]
    rfl
  · rw [hsess]
    rfl
  · rw [hsess]
    show ((promoteDecodedToSession tok.claims).sensitive || false) = _
    rw [Bool.or_false]
    rcases hscope2 : tok.claims.scope with s | l <;>
      simp [promoteDecodedToSession, scopeContains, hscope2]
  · rw [hsess]
    show ((promoteDecodedToSession tok.claims).moderate || false) = _
    rw [Bool.or_false]
    rcases hscope2 : tok.claims.scope with s | l <;>
      simp [promoteDecodedToSession, scopeContains, hscope2]

/-- Closed witness for the C3 theorem at the T2 scenario. -/
theorem valid_header_session_context_witness :
    (doRouteAssociateAndRefresh opts0 idOracle reqT2 {} now0 "u1" "u2" ()).crashed = false
    ∧ (doRouteAssociateAndRefresh opts0 idOracle reqT2 {} now0 "u1" "u2" ()).completions =
        [Completion.ok]
    ∧ (doRouteAssociateAndRefresh opts0 idOracle reqT2 {} now0 "u1" "u2" ()).session.mutation =
        true
    ∧ (doRouteAssociateAndRefresh opts0 idOracle reqT2 {} now0 "u1" "u2" ()).session.sub =
        tokT2.claims.sub
    ∧ (doRouteAssociateAndRefresh opts0 idOracle reqT2 {} now0 "u1" "u2" ()).session.sensitive =
        scopeContains tokT2.claims.scope "sensitive"
    ∧ (doRouteAssociateAndRefresh opts0 idOracle reqT2 {} now0 "u1" "u2" ()).session.moderate =
        scopeContains tokT2.claims.scope "moderate"
    ∧ (reqT2.refreshCookie = none →
        (doRouteAssociateAndRefresh opts0 idOracle reqT2 {} now0 "u1" "u2" ()).writes = []) :=
  valid_header_session_context idOracle opts0 reqT2 "Bearer" tokT2 now0 "u1" "u2" ()
    (by rfl) (by decide) (by rfl) (by decide) (by rfl) (by rfl)

/-- C6: a request with no header, a valid unrevoked refresh cookie, and a
valid session cookie for the same subject that is not almost expired,
completes normally with zero cookie writes. -/
theorem stable_cookies_zero_writes {σ : Type}
    (oracle : σ → Option String → Option String × σ) (opts : Options)
    (req : Request) (rtok stok : Jwt) (nowMs : Nat) (j1 j2 : String) (st : σ)
    (hreq : req.authorization = none)
    (hrc : req.refreshCookie = some rtok)
    (hsc : req.sessionCookie = some stok)
    (hrsig : rtok.sig = opts.secret)
    (hrexp : nowMs / 1000 < rtok.claims.exp)
    (hriss : rtok.claims.iss = opts.iss)
    (hrscope : rtok.claims.scope = ScopeV.str "refresh")
    (horacle : (oracle st rtok.claims.sub).1 = rtok.claims.sub)
    (hssig : stok.sig = opts.secret)
    (hsexp : nowMs / 1000 < stok.claims.exp)
    (hsiss : stok.claims.iss = opts.iss)
    (hsub : stok.claims.sub = rtok.claims.sub)
    (_hnear : almostExpired stok.claims opts nowMs = false) :
    (doRouteAssociateAndRefresh opts oracle req {} nowMs j1 j2 st).writes = []
    ∧ (doRouteAssociateAndRefresh opts oracle req {} nowMs j1 j2 st).completions =
        [Completion.ok]
    ∧ (doRouteAssociateAndRefresh opts oracle req {} nowMs j1 j2 st).crashed = false := by
  have hauth : authenticateHeaderIfPresent req opts nowMs = Except.ok none := by
    unfold authenticateHeaderIfPresent
    rw [hreq]
  have hvr : jwtVerify (some rtok) opts.secret opts.iss nowMs = Except.ok rtok.claims := by
    unfold jwtVerify
    dsimp only
    rw [if_neg (by simp [hrsig]), if_neg (by omega), if_neg (by simp [hriss])]
  have hcookr : authenticateCookie req.refreshCookie opts nowMs =
      Except.ok (some rtok.claims) := by
    unfold authenticateCookie
    rw [hrc]
    dsimp only
    rw [hvr]
    rfl
  have hvs : jwtVerify (some stok) opts.secret opts.iss nowMs = Except.ok stok.claims := by
    unfold jwtVerify
    dsimp only
    rw [if_neg (by simp [hssig]), if_neg (by omega), if_neg (by simp [hsiss])]
  have hcooks : authenticateCookie req.sessionCookie opts nowMs =
      Except.ok (some stok.claims) := by
    unfold authenticateCookie
    rw [hsc]
    dsimp only
    rw [hvs]
    rfl
  have hrun : doRouteAssociateAndRefresh opts oracle req {} nowMs j1 j2 st =
      nextWithExistingSession opts req nowMs j1 (oracle st rtok.claims.sub).2 {}
        (some rtok.claims) := by
    unfold doRouteAssociateAndRefresh
    rw [if_neg (by decide), hauth]
    dsimp only
    rw [hcookr]
    dsimp only [Option.some_bind]
    rw [if_pos horacle]
  rw [hrun]
  unfold nextWithExistingSession
  dsimp only
  rw [if_neg (by simp [hrc]), if_neg (by simp [hrscope]), hcooks]
  dsimp only
  rw [if_pos (And.intro
    (show stok.claims.sub =
        (extendPromoted {} (promoteDecodedToSession rtok.claims) rtok.claims).sub from hsub)
    (show (!almostExpiredMiscalled stok.claims opts.sessionEarlyRefresh nowMs) = true from
      rfl))]
  exact ⟨rfl, rfl, rfl⟩

/-- Closed witness for the C6 theorem at the T4 scenario. -/
theorem stable_cookies_zero_writes_witness :
    (doRouteAssociateAndRefresh opts0 idOracle reqT4 {} now0 "u1" "u2" ()).writes = []
    ∧ (doRouteAssociateAndRefresh opts0 idOracle reqT4 {} now0 "u1" "u2" ()).completions =
        [Completion.ok]
    ∧ (doRouteAssociateAndRefresh opts0 idOracle reqT4 {} now0 "u1" "u2" ()).crashed =
        false :=
  stable_cookies_zero_writes idOracle opts0 reqT4 rtokT4 stokT4 now0 "u1" "u2" ()
    (by rfl) (by rfl) (by rfl) (by rfl) (by decide) (by rfl) (by rfl) (by rfl)
    (by rfl) (by decide) (by rfl) (by rfl) (by decide)

/-- C10: with no header and no refresh cookie the revocation callback is
invoked on the absent subject, and if it answers the absent subject
unchanged, the association step promotes an absent decoded credential and
crashes dereferencing it inside promoteDecodedToSession; conversely, under
the precondition that the callback never answers an absent subject
unchanged, the step never crashes on any request. -/
theorem promote_crash_characterization :
    (∀ (σ : Type) (oracle : σ → Option String → Option String × σ)
        (opts : Options) (sc : Option Jwt) (sec : Bool) (nowMs : Nat)
        (j1 j2 : String) (st : σ),
      (oracle st none).1 = none →
      (doRouteAssociateAndRefresh opts oracle
          { authorization := none, refreshCookie := none, sessionCookie := sc,
            secure := sec } {} nowMs j1 j2 st).crashed = true)
    ∧ (∀ (σ : Type) (oracle : σ → Option String → Option String × σ)
        (opts : Options) (req : Request) (s0 : Session) (nowMs : Nat)
        (j1 j2 : String) (st : σ),
      (∀ s : σ, (oracle s none).1 ≠ none) →
      (doRouteAssociateAndRefresh opts oracle req s0 nowMs j1 j2 st).crashed = false) := by
  constructor
  · intro σ oracle opts sc sec nowMs j1 j2 st h
    unfold doRouteAssociateAndRefresh
    rw [if_neg (by decide)]
    dsimp only [authenticateHeaderIfPresent, authenticateCookie, Option.none_bind]
    rw [if_pos h]
    rfl
  · intro σ oracle opts req s0 nowMs j1 j2 st hne
    obtain ⟨_, _, _, hcrash⟩ := run_cases opts oracle req s0 nowMs j1 j2 st
    rcases Bool.eq_false_or_eq_true
        (doRouteAssociateAndRefresh opts oracle req s0 nowMs j1 j2 st).crashed with h | h
    · exact absurd (hcrash h) (hne st)
    · exact h

/-- Closed witness for the C10 theorem: the crash at a callback answering
the absent subject unchanged and the absence of a crash at a callback that
always resolves a fresh subject. -/
theorem promote_crash_characterization_witness :
    (doRouteAssociateAndRefresh opts0 noneOracle reqNoCreds {} now0 "u1" "u2" ()).crashed =
      true
    ∧ (doRouteAssociateAndRefresh opts0 constOracle reqNoCreds {} now0 "u1" "u2" ()).crashed =
      false :=
  ⟨promote_crash_characterization.1 Unit noneOracle opts0 none false now0 "u1" "u2" ()
      (by decide),
   promote_crash_characterization.2 Unit constOracle opts0 reqNoCreds {} now0 "u1" "u2" ()
      (fun s h => Option.noConfusion h)⟩

end Creep
